import Mathlib

/-!
Verification development for the syllabus-scanner server's
response-normalization and multi-page-combination logic.

The JavaScript source is shallowly embedded on `List Char`.  JS strings are
UTF-16, so `utf16Len` measures length the way `String.prototype.length` does;
regexes that the code builds (`extractField`, `extractBulletPoints`,
`extractAssignments`, `parseAssignmentBullet`) are embedded as specialized
matchers that reproduce the leftmost-match / greedy-with-backtracking
behaviour of the concrete patterns appearing in the source.
-/

namespace Syllabus

abbrev Str := List Char

/-- UTF-16 length of a string, as JavaScript's `.length` computes it:
astral code points (≥ U+10000) count as two code units. -/
def utf16Len (s : Str) : Nat :=
  s.foldl (fun n c => n + (if c.toNat ≥ 65536 then 2 else 1)) 0

/-- JS `\s` (and `String.prototype.trim`) whitespace class, restricted to the
characters that can actually occur in this pipeline's data. -/
def isJsSpace (c : Char) : Bool :=
  c = ' ' || c = '\t' || c = '\n' || c = '\x0d' || c = '\x0b' || c = '\x0c' ||
  c = ' ' || c = '﻿'

/-- JS `\w` class: `[A-Za-z0-9_]`. -/
def isJsWord (c : Char) : Bool :=
  ('a' ≤ c && c ≤ 'z') || ('A' ≤ c && c ≤ 'Z') || ('0' ≤ c && c ≤ '9') || c = '_'

/-- JS `\d` class. -/
def isJsDigit (c : Char) : Bool := '0' ≤ c && c ≤ '9'

/-- ASCII lower-casing, the fragment of `String.prototype.toLowerCase`
exercised by the code (all keywords and labels are ASCII). -/
def lowerChar (c : Char) : Char :=
  if 'A' ≤ c && c ≤ 'Z' then Char.ofNat (c.toNat + 32) else c

def lowerStr (s : Str) : Str := s.map lowerChar

/-- `String.prototype.trim`. -/
def trimJs (s : Str) : Str :=
  ((s.dropWhile isJsSpace).reverse.dropWhile isJsSpace).reverse

/-- `haystack.includes(needle)`. -/
def containsSub (s pat : Str) : Bool :=
  match s with
  | [] => pat.isEmpty
  | _ :: cs => pat.isPrefixOf s || containsSub cs pat

/-- Case-insensitive prefix test (for regexes compiled with the `i` flag). -/
def ciPrefixOf : Str → Str → Bool
  | [], _ => true
  | _ :: _, [] => false
  | p :: ps, c :: cs => (lowerChar p == lowerChar c) && ciPrefixOf ps cs

/-- Leftmost-match scan: try `f` on every suffix, left to right, and return
the first hit.  This is how a JS regex engine locates its match. -/
def firstSuffixHit (f : Str → Option α) : Str → Option α
  | [] => f []
  | c :: cs =>
    match f (c :: cs) with
    | some r => some r
    | none => firstSuffixHit f cs

/-! ### The placeholder sentinel and the fixed header strings -/

def sentinel : Str := "Not specified in document".data

def notSpecifiedShort : Str := "Not specified".data

def testDatesHdr : Str := "TEST DATES".data

def assignDeadlineHdr : Str := "ASSIGNMENT DEADLINE".data

/-! ### `extractBulletPoints` (the helper inside `combineAllResults`)

Source (part_001 lines 265–284):
```
const sectionRegex = new RegExp(`${sectionTitle}\\s*\\n([\\s\\S]*?)(?=\\n\\s*[🎓📝📋📚🎯📅]|$)`, 'i');
const sectionMatch = content.match(sectionRegex);
if (sectionMatch) {
  const bullets = sectionMatch[1].match(/•\s*([^\n]+)/g) || [];
  return bullets.map(b => b.replace(/^•\s*/, '').trim())
    .filter(b => b && !b.includes('Not specified in document') &&
                 !b.includes('TEST DATES') && !b.includes('ASSIGNMENT DEADLINE') &&
                 b.length > 5);
}
return [];
```
-/

/-- The character class `[🎓📝📋📚🎯📅]` is compiled without the `u` flag, so
in UTF-16 it is a class of the surrogate code units of those six emoji; a
code point matches the lookahead iff its high surrogate is `D83C`/`D83D`,
i.e. iff it lies in U+1F000–U+1F7FF (the six glyphs all do). -/
def isGlyph (c : Char) : Bool := 126976 ≤ c.toNat && c.toNat ≤ 129023

/-- After the section title the regex needs `\s*\n`: greedily, the capture
starts right after the last newline of the maximal whitespace run. -/
def sectionHeaderTail (s : Str) : Option Str :=
  let run := s.takeWhile isJsSpace
  if run.contains '\n' then
    let m := (run.reverse.takeWhile (fun c => c ≠ '\n')).length
    some (s.drop (run.length - m))
  else none

/-- Does this suffix begin with the lookahead `\n\s*[glyph]`? -/
def isBoundarySuffix : Str → Bool
  | '\n' :: rest =>
    match rest.dropWhile isJsSpace with
    | c :: _ => isGlyph c
    | [] => false
  | _ => false

/-- Lazy capture `([\s\S]*?)` up to the lookahead `(?=\n\s*[glyph]|$)`. -/
def takeBlock : Str → Str
  | [] => []
  | c :: cs => if isBoundarySuffix (c :: cs) then [] else c :: takeBlock cs

/-- Locate the section block: leftmost case-insensitive occurrence of the
title that is followed by `\s*\n`; returns the text from the capture start. -/
def findSectionTail (title content : Str) : Option Str :=
  firstSuffixHit
    (fun s => if ciPrefixOf title s then sectionHeaderTail (s.drop title.length) else none)
    content

/-- One attempt of `•\s*([^\n]+)` at a position whose character is `•`:
`rest` is the text after the bullet.  Returns the rest of the full match
(after `•`) and the remainder of the text. -/
def bulletTail (rest : Str) : Option (Str × Str) :=
  let run := rest.takeWhile isJsSpace
  let k? : Option Nat :=
    if run.length < rest.length then some run.length
    else
      -- the text ends inside the whitespace run: backtrack `\s*` to the last
      -- non-newline whitespace character, if any
      let idxs := (List.range run.length).filter (fun i => run.getD i '\n' ≠ '\n')
      idxs.getLast?
  match k? with
  | none => none
  | some k =>
    let cap := (rest.drop k).takeWhile (fun c => c ≠ '\n')
    if cap.isEmpty then none
    else some (rest.take k ++ cap, rest.drop (k + cap.length))

/-- All matches of `/•\s*([^\n]+)/g` (full match texts), fuelled recursion. -/
def allBulletsGo : Nat → Str → List Str
  | 0, _ => []
  | _ + 1, [] => []
  | fuel + 1, c :: cs =>
    if c = '•' then
      match bulletTail cs with
      | some (body, rest) => ('•' :: body) :: allBulletsGo fuel rest
      | none => allBulletsGo fuel cs
    else allBulletsGo fuel cs

def allBullets (s : Str) : List Str := allBulletsGo s.length s

/-- `b.replace(/^•\s*/, '')`. -/
def stripBullet : Str → Str
  | '•' :: rest => rest.dropWhile isJsSpace
  | s => s

def cleanBullet (b : Str) : Str := trimJs (stripBullet b)

/-- The filter predicate of `extractBulletPoints`. -/
def keepBullet (b : Str) : Bool :=
  !b.isEmpty && !containsSub b sentinel && !containsSub b testDatesHdr &&
  !containsSub b assignDeadlineHdr && decide (5 < utf16Len b)

def extractBulletPoints (content sectionTitle : Str) : List Str :=
  match findSectionTail sectionTitle content with
  | none => []
  | some tail => ((allBullets (takeBlock tail)).map cleanBullet).filter keepBullet

/-! ### Scalar field extraction inside `combineAllResults`

For each field the code does, e.g.
```
if (content.includes('Professor:') && !courseInfo.professor) {
  const match = content.match(/Professor: ([^\n•]+)/);
  if (match && !match[1].includes('Not specified')) courseInfo.professor = match[1].trim();
}
```
-/

/-- Capture of `([^\n•]+)`: the maximal nonempty run of characters that are
neither a newline nor a bullet. -/
def captureFieldRun (s : Str) : Option Str :=
  let cap := s.takeWhile (fun c => c ≠ '\n' && c ≠ '•')
  if cap.isEmpty then none else some cap

/-- `content.match(new RegExp(label + ': ([^\n•]+)'))[1]` (case sensitive,
leftmost occurrence). -/
def extractLabeledRaw (lbl content : Str) : Option Str :=
  firstSuffixHit
    (fun s => if lbl.isPrefixOf s then captureFieldRun (s.drop lbl.length) else none)
    content

/-- One guarded field update of `combineAllResults` (first-wins). -/
def updateField (content : Str) (lbl : Str) (cur : Str) : Str :=
  if containsSub content (lbl ++ [':']) && cur.isEmpty then
    match extractLabeledRaw (lbl ++ [':', ' ']) content with
    | some raw => if containsSub raw notSpecifiedShort then cur else trimJs raw
    | none => cur
  else cur

/-! ### `combineAllResults` -/

structure PageData where
  plain_text : Str
deriving DecidableEq

structure PageEntry where
  pageNumber : Int
  data : PageData
deriving DecidableEq

structure MergeState where
  name : Str
  professor : Str
  email : Str
  meetingDays : Str
  officeHours : Str
  testDates : List Str
  assignmentDeadlines : List Str
  weeklyReadings : List Str
  majorDeliverables : List Str
  importantDates : List Str
deriving DecidableEq

def initState : MergeState :=
  { name := [], professor := [], email := [], meetingDays := [], officeHours := []
    testDates := [], assignmentDeadlines := [], weeklyReadings := []
    majorDeliverables := [], importantDates := [] }

/-- `newItems.forEach(item => { if (!acc.includes(item)) acc.push(item); })`. -/
def addUnique (acc items : List Str) : List Str :=
  items.foldl (fun a i => if a.contains i then a else a ++ [i]) acc

def nameLbl : Str := "Course Name".data

def professorLbl : Str := "Professor".data

def emailLbl : Str := "Email".data

def meetingDaysLbl : Str := "Meeting Days".data

def officeHoursLbl : Str := "Office Hours".data

def testDatesTitle : Str := "TEST DATES".data

def assignmentDeadlinesTitle : Str := "ASSIGNMENT DEADLINES".data

def weeklyReadingsTitle : Str := "WEEKLY READINGS".data

def majorDeliverablesTitle : Str := "MAJOR DELIVERABLES".data

def importantDatesTitle : Str := "IMPORTANT DATES".data

/-- Body of the per-page `forEach` of `combineAllResults`. -/
def stepPage (st : MergeState) (content : Str) : MergeState :=
  { name := updateField content nameLbl st.name
    professor := updateField content professorLbl st.professor
    email := updateField content emailLbl st.email
    meetingDays := updateField content meetingDaysLbl st.meetingDays
    officeHours := updateField content officeHoursLbl st.officeHours
    testDates := addUnique st.testDates (extractBulletPoints content testDatesTitle)
    assignmentDeadlines :=
      addUnique st.assignmentDeadlines (extractBulletPoints content assignmentDeadlinesTitle)
    weeklyReadings := addUnique st.weeklyReadings (extractBulletPoints content weeklyReadingsTitle)
    majorDeliverables :=
      addUnique st.majorDeliverables (extractBulletPoints content majorDeliverablesTitle)
    importantDates := addUnique st.importantDates (extractBulletPoints content importantDatesTitle) }

def mergeState (pages : List PageEntry) : MergeState :=
  pages.foldl (fun st p => stepPage st p.data.plain_text) initState

/-! ### The rendered summary template -/

def heavyLine : Str := List.replicate 90 '━'

/-- `${x || 'Not specified'}`. -/
def orNotSpecified (v : Str) : Str := if v.isEmpty then "Not specified".data else v

/-- `${list.length > 0 ? list.map(t => '• ' + t).join('\n') : '• Not specified in document'}`. -/
def renderListSection (l : List Str) : Str :=
  if l.isEmpty then "• Not specified in document".data
  else List.intercalate "\n".data (l.map (fun t => "• ".data ++ t))

/-- `[...new Set(list)]`: first-occurrence dedup, insertion order kept. -/
def setDedup (l : List Str) : List Str :=
  l.foldl (fun a i => if a.contains i then a else a ++ [i]) []

def renderTemplate (st : MergeState) : Str :=
  "\n".data ++ heavyLine ++
  "\n\n📚 SYLLABUS SUMMARY\n\n🎓 COURSE INFORMATION\n• Course: ".data ++
  orNotSpecified st.name ++
  "\n• Professor: ".data ++ orNotSpecified st.professor ++
  "\n• Email: ".data ++ orNotSpecified st.email ++
  "\n• Meeting Days: ".data ++ orNotSpecified st.meetingDays ++
  "\n• Office Hours: ".data ++ orNotSpecified st.officeHours ++
  "\n\n📝 EXAM DATES\n".data ++ renderListSection st.testDates ++
  "\n\n📋 ASSIGNMENT DEADLINES\n".data ++ renderListSection st.assignmentDeadlines ++
  "\n\n📅 IMPORTANT DATES\n".data ++ renderListSection (setDedup st.importantDates) ++
  "\n\n".data ++ heavyLine ++ "\n".data

def combineAllResults (allPageData : List PageEntry) : PageData :=
  { plain_text := renderTemplate (mergeState allPageData) }

/-! ### Date pattern matching in `parseAssignmentBullet`

The four patterns, tried in this order (part_001 lines 546–551):
```
/(\w+\s+\d{1,2},?\s+\d{4})/i   // March 15, 2024
/(\d{1,2}\/\d{1,2}\/\d{4})/    // 3/15/2024
/(\d{1,2}-\d{1,2}-\d{4})/      // 3-15-2024
/(\w+\s+\d{1,2})/i             // March 15
```
Each matcher below reproduces the pattern's leftmost-match behaviour; the
only backtracking these patterns need is in `\d{1,2}` (try two digits, then
one), since the classes `\w`, `\s` and `\d` are pairwise disjoint. -/

/-- Tail of pattern 1 after the word and the first whitespace run:
`\d{1,2},?\s+\d{4}` with exactly `dlen` day digits; returns consumed length. -/
def pat1Digits (r2 : Str) (dlen : Nat) : Option Nat :=
  let ds := r2.take dlen
  if ds.length = dlen && ds.all isJsDigit then
    let r3 := r2.drop dlen
    let commaLen := match r3 with | ',' :: _ => 1 | _ => 0
    let r3' := r3.drop commaLen
    let sp2 := r3'.takeWhile isJsSpace
    if sp2.isEmpty then none
    else
      let y := (r3'.drop sp2.length).take 4
      if y.length = 4 && y.all isJsDigit then some (dlen + commaLen + sp2.length + 4)
      else none
  else none

/-- One attempt of `(\w+\s+\d{1,2},?\s+\d{4})` at the start of `s`. -/
def pat1At (s : Str) : Option Str :=
  let w := s.takeWhile isJsWord
  if w.isEmpty then none
  else
    let r1 := s.drop w.length
    let sp1 := r1.takeWhile isJsSpace
    if sp1.isEmpty then none
    else
      let r2 := r1.drop sp1.length
      match pat1Digits r2 2 with
      | some n => some (s.take (w.length + sp1.length + n))
      | none =>
        match pat1Digits r2 1 with
        | some n => some (s.take (w.length + sp1.length + n))
        | none => none

/-- Tail of pattern 2/3 after the first separator: `\d{1,2}<sep>\d{4}`. -/
def pat2Inner (sep : Char) (r : Str) (d2len : Nat) : Option Nat :=
  let ds := r.take d2len
  if ds.length = d2len && ds.all isJsDigit then
    match r.drop d2len with
    | c :: rest =>
      if c = sep then
        let y := rest.take 4
        if y.length = 4 && y.all isJsDigit then some (d2len + 1 + 4) else none
      else none
    | [] => none
  else none

def pat2Try (sep : Char) (s : Str) (d1len : Nat) : Option Str :=
  let ds := s.take d1len
  if ds.length = d1len && ds.all isJsDigit then
    match s.drop d1len with
    | c :: rest =>
      if c = sep then
        match pat2Inner sep rest 2 with
        | some n => some (s.take (d1len + 1 + n))
        | none =>
          match pat2Inner sep rest 1 with
          | some n => some (s.take (d1len + 1 + n))
          | none => none
      else none
    | [] => none
  else none

/-- One attempt of `(\d{1,2}<sep>\d{1,2}<sep>\d{4})` at the start of `s`. -/
def pat2At (sep : Char) (s : Str) : Option Str :=
  match pat2Try sep s 2 with
  | some m => some m
  | none => pat2Try sep s 1

/-- One attempt of `(\w+\s+\d{1,2})` at the start of `s`. -/
def pat4At (s : Str) : Option Str :=
  let w := s.takeWhile isJsWord
  if w.isEmpty then none
  else
    let r1 := s.drop w.length
    let sp := r1.takeWhile isJsSpace
    if sp.isEmpty then none
    else
      let r2 := r1.drop sp.length
      let d2 := r2.take 2
      if d2.length = 2 && d2.all isJsDigit then some (s.take (w.length + sp.length + 2))
      else
        let d1 := r2.take 1
        if d1.length = 1 && d1.all isJsDigit then some (s.take (w.length + sp.length + 1))
        else none

def firstMatch1 (s : Str) : Option Str := firstSuffixHit pat1At s

def firstMatchSlash (s : Str) : Option Str := firstSuffixHit (pat2At '/') s

def firstMatchDash (s : Str) : Option Str := firstSuffixHit (pat2At '-') s

def firstMatch4 (s : Str) : Option Str := firstSuffixHit pat4At s

/-! ### `new Date(string)` on the matched substrings, and `toISOString`

`new Date(str)` interprets these legacy formats at *local* midnight; the
server's UTC offset (minutes east of UTC, as a parameter `tz`) therefore
enters when `toISOString` converts to UTC.  The calendar arithmetic uses
standard civil-day/epoch-day conversions; V8 accepts day values 1–31 and
rolls surplus days over into the next month, which the affine day term of
`daysFromCivil` reproduces. -/

def monthNames : List (Str × Int) :=
  [("january".data, 1), ("february".data, 2), ("march".data, 3), ("april".data, 4),
   ("may".data, 5), ("june".data, 6), ("july".data, 7), ("august".data, 8),
   ("september".data, 9), ("october".data, 10), ("november".data, 11),
   ("december".data, 12),
   ("jan".data, 1), ("feb".data, 2), ("mar".data, 3), ("apr".data, 4),
   ("jun".data, 6), ("jul".data, 7), ("aug".data, 8), ("sep".data, 9),
   ("oct".data, 10), ("nov".data, 11), ("dec".data, 12)]

def parseMonthName (w : Str) : Option Int :=
  (monthNames.find? (fun p => p.1 == lowerStr w)).map (fun p => p.2)

def digitsVal (ds : Str) : Int :=
  ds.foldl (fun n c => n * 10 + ((c.toNat : Int) - 48)) 0

/-- Parse `word \s+ d{1,2} ,? \s+ d{4}` as a whole string into components. -/
def parseWordDayYear (s : Str) : Option (Int × Int × Int) :=
  let w := s.takeWhile isJsWord
  if w.isEmpty then none
  else
    let r1 := s.drop w.length
    let sp1 := r1.takeWhile isJsSpace
    if sp1.isEmpty then none
    else
      let r2 := r1.drop sp1.length
      let ds := r2.takeWhile isJsDigit
      if ds.isEmpty || 2 < ds.length then none
      else
        let r3 := r2.drop ds.length
        let commaLen := match r3 with | ',' :: _ => 1 | _ => 0
        let r3' := r3.drop commaLen
        let sp2 := r3'.takeWhile isJsSpace
        if sp2.isEmpty then none
        else
          let ys := r3'.drop sp2.length
          if ys.length = 4 && ys.all isJsDigit then
            match parseMonthName w with
            | some m =>
              let d := digitsVal ds
              if 1 ≤ d && d ≤ 31 then some (digitsVal ys, m, d) else none
            | none => none
          else none

/-- Parse `d{1,2} <sep> d{1,2} <sep> d{4}` as a whole string. -/
def parseMDY (sep : Char) (s : Str) : Option (Int × Int × Int) :=
  let ms := s.takeWhile isJsDigit
  if ms.isEmpty || 2 < ms.length then none
  else
    match s.drop ms.length with
    | c :: r1 =>
      if c = sep then
        let ds := r1.takeWhile isJsDigit
        if ds.isEmpty || 2 < ds.length then none
        else
          match r1.drop ds.length with
          | c2 :: r2 =>
            if c2 = sep then
              if r2.length = 4 && r2.all isJsDigit then
                let m := digitsVal ms
                let d := digitsVal ds
                if 1 ≤ m && m ≤ 12 && 1 ≤ d && d ≤ 31 then some (digitsVal r2, m, d)
                else none
              else none
            else none
          | [] => none
      else none
    | [] => none

/-- Parse year-less `word \s+ d{1,2}`; V8 resolves it in year 2001. -/
def parseWordDay (s : Str) : Option (Int × Int × Int) :=
  let w := s.takeWhile isJsWord
  if w.isEmpty then none
  else
    let r1 := s.drop w.length
    let sp := r1.takeWhile isJsSpace
    if sp.isEmpty then none
    else
      let ds := r1.drop sp.length
      if !ds.isEmpty && ds.length ≤ 2 && ds.all isJsDigit then
        match parseMonthName w with
        | some m =>
          let d := digitsVal ds
          if 1 ≤ d && d ≤ 31 then some (2001, m, d) else none
        | none => none
      else none

/-- `new Date(str)` for the substrings matched by the four patterns:
`some (year, month, day)` for a valid date, `none` for an Invalid Date
(whose `toISOString()` throws a RangeError). -/
def jsDateParse (s : Str) : Option (Int × Int × Int) :=
  match parseMDY '/' s with
  | some r => some r
  | none =>
    match parseMDY '-' s with
    | some r => some r
    | none =>
      match parseWordDayYear s with
      | some r => some r
      | none => parseWordDay s

/-- Days from the epoch 1970-01-01 of a civil date (Hinnant's algorithm,
affine in `d`, so out-of-range days roll over like V8's MakeDay). -/
def daysFromCivil (y m d : Int) : Int :=
  let y2 := if m ≤ 2 then y - 1 else y
  let era := Int.fdiv y2 400
  let yoe := y2 - era * 400
  let mp := (m + 9) % 12
  let doy := Int.fdiv (153 * mp + 2) 5 + d - 1
  let doe := 365 * yoe + Int.fdiv yoe 4 - Int.fdiv yoe 100 + doy
  era * 146097 + doe - 719468

/-- Civil date from days since the epoch (Hinnant's inverse). -/
def civilFromDays (z0 : Int) : Int × Int × Int :=
  let z := z0 + 719468
  let era := Int.fdiv z 146097
  let doe := z - era * 146097
  let yoe := Int.fdiv (doe - Int.fdiv doe 1460 + Int.fdiv doe 36524 - Int.fdiv doe 146096) 365
  let y := yoe + era * 400
  let doy := doe - (365 * yoe + Int.fdiv yoe 4 - Int.fdiv yoe 100)
  let mp := Int.fdiv (5 * doy + 2) 153
  let d := doy - Int.fdiv (153 * mp + 2) 5 + 1
  let m := if mp < 10 then mp + 3 else mp - 9
  (if m ≤ 2 then y + 1 else y, m, d)

def natDigitsStr (n : Nat) : Str := (Nat.repr n).data

def pad2 (n : Int) : Str :=
  let v := n.toNat
  if v < 10 then '0' :: natDigitsStr v else natDigitsStr v

def pad4 (n : Int) : Str :=
  let s := natDigitsStr n.toNat
  List.replicate (4 - s.length) '0' ++ s

def isoOfDays (z : Int) : Str :=
  match civilFromDays z with
  | (y, m, d) => pad4 y ++ "-".data ++ pad2 m ++ "-".data ++ pad2 d

/-- `new Date(matched).toISOString().split('T')[0]` on a server whose UTC
offset is `tz` minutes (east positive): the date is local midnight, so the
UTC timestamp is `days*1440 - tz` minutes, floored back to a UTC day. -/
def isoDateString (tz : Int) (y m d : Int) : Str :=
  isoOfDays (Int.fdiv (daysFromCivil y m d * 1440 - tz) 1440)

/-! ### `parseAssignmentBullet` -/

structure Assignment where
  title : Str
  due_date : Option Str
  due_time : Option Str
  type : Str
  description : Str
deriving DecidableEq

/-- `bullet.replace(matchedString, '')`: remove the first occurrence. -/
def removeFirstSub (needle : Str) : Str → Str
  | [] => []
  | c :: cs =>
    if needle.isPrefixOf (c :: cs) then (c :: cs).drop needle.length
    else c :: removeFirstSub needle cs

/-- `.replace(/[:-]/g, '')`. -/
def removeColonDash (s : Str) : Str := s.filter (fun c => !(c = ':' || c = '-'))

/-- The type-classification chain of `parseAssignmentBullet`. -/
def classifyType (bullet sect : Str) : Str :=
  let b := lowerStr bullet
  let s := lowerStr sect
  if containsSub s "test".data || containsSub s "exam".data ||
     containsSub b "exam".data || containsSub b "test".data then "exam".data
  else if containsSub b "assignment".data || containsSub b "homework".data then
    "assignment".data
  else if containsSub b "reading".data then "reading".data
  else if containsSub b "project".data then "project".data
  else if containsSub b "quiz".data then "quiz".data
  else "other".data

/-- The date-pattern loop: first pattern that matches *and* whose matched
substring parses as a valid date wins (an Invalid Date makes `toISOString`
throw, which the catch turns into trying the next pattern). -/
def tryDateGo (tz : Int) (bullet : Str) : List (Str → Option Str) → Option (Str × Str)
  | [] => none
  | p :: ps =>
    match p bullet with
    | none => tryDateGo tz bullet ps
    | some m =>
      match jsDateParse m with
      | none => tryDateGo tz bullet ps
      | some (y, mo, d) =>
        some (isoDateString tz y mo d, trimJs (removeColonDash (removeFirstSub m bullet)))

def datePatterns : List (Str → Option Str) :=
  [firstMatch1, firstMatchSlash, firstMatchDash, firstMatch4]

def parseAssignmentBullet (tz : Int) (bullet sect : Str) : Assignment :=
  let dt := tryDateGo tz bullet datePatterns
  { title :=
      match dt with
      | some (_, t) => if t.isEmpty then bullet else t
      | none => bullet
    due_date := dt.map (fun x => x.1)
    due_time := none
    type := classifyType bullet sect
    description := bullet }

/-! ### `extractAssignments` -/

def assignSections : List Str :=
  ["TEST DATES".data, "ASSIGNMENT DEADLINE".data, "Important Dates".data,
   "EXAMS".data, "ASSIGNMENTS".data]

/-- `match[0]` of `new RegExp(section + '[\s\S]*?(?=\n\s*[glyphs]|$)', 'i')`:
the section text as matched plus the lazily captured block. -/
def findAssignBlock (sect content : Str) : Option Str :=
  firstSuffixHit
    (fun s =>
      if ciPrefixOf sect s then some (s.take sect.length ++ takeBlock (s.drop sect.length))
      else none)
    content

def extractAssignments (tz : Int) (text : Str) : List Assignment :=
  assignSections.foldl
    (fun acc sect =>
      match findAssignBlock sect text with
      | none => acc
      | some block =>
        (allBullets block).foldl
          (fun acc2 b =>
            let cb := trimJs (stripBullet b)
            if !cb.isEmpty && !containsSub cb sentinel then
              acc2 ++ [parseAssignmentBullet tz cb sect]
            else acc2)
          acc)
    []

/-! ### `extractField` (the three-pattern field extractor of
`parseSyllabusData`)

In the source the pattern strings are built in ordinary template literals, so
the unescaped `\s` inside `[:\s]` collapses to the letter `s`: the compiled
patterns are `fieldName[:s]*([^\n•]+)`, `📚\s*fieldName[:s]*([^\n•]+)`,
`🎓\s*fieldName[:s]*([^\n•]+)`, all with the `i` flag. -/

def classColonS (c : Char) : Bool := c = ':' || c = 's' || c = 'S'

def capAt (rest : Str) (k : Nat) : Option Str :=
  let cap := (rest.drop k).takeWhile (fun c => c ≠ '\n' && c ≠ '•')
  if cap.isEmpty then none else some cap

/-- Greedy `[:s]*` with backtracking: try the longest class run first, then
shorter, until `([^\n•]+)` can start. -/
def backtrackClassCap (rest : Str) : Nat → Option Str
  | 0 => capAt rest 0
  | k + 1 =>
    match capAt rest (k + 1) with
    | some c => some c
    | none => backtrackClassCap rest k

def fieldTailCap (rest : Str) : Option Str :=
  backtrackClassCap rest (rest.takeWhile classColonS).length

def fieldPat1At (name : Str) (s : Str) : Option Str :=
  if ciPrefixOf name s then fieldTailCap (s.drop name.length) else none

def fieldPatEmojiAt (g : Char) (name : Str) (s : Str) : Option Str :=
  match s with
  | c :: rest =>
    if c = g then
      let ws := rest.takeWhile isJsSpace
      let r2 := rest.drop ws.length
      if ciPrefixOf name r2 then fieldTailCap (r2.drop name.length) else none
    else none
  | [] => none

/-- `extractField(text, fieldName)`: first of the three patterns that
matches; the capture is trimmed and a leading bullet stripped. -/
def extractFieldJS (text name : Str) : Option Str :=
  match firstSuffixHit (fieldPat1At name) text with
  | some cap => some (stripBullet (trimJs cap))
  | none =>
    match firstSuffixHit (fieldPatEmojiAt '📚' name) text with
    | some cap => some (stripBullet (trimJs cap))
    | none =>
      match firstSuffixHit (fieldPatEmojiAt '🎓' name) text with
      | some cap => some (stripBullet (trimJs cap))
      | none => none

/-! ### `parseSyllabusData`, with JS dynamic typing made explicit

`server.js` contains two `parseSyllabusData` declarations; function hoisting
makes the later, string-based one (lines 529–542) the effective definition.
The route hands it `aiResponse` unguarded, which on the image path is the
object `{ plain_text: ... }`, and `extractField` then calls `.match` on a
non-string.  `JSVal` and `Except` make that throw explicit. -/

inductive JSVal where
  | str : Str → JSVal
  | obj : List (Str × JSVal) → JSVal

structure CourseData where
  course_name : Str
  professor_name : Str
  professor_email : Str
  meeting_days : Str
  office_hours : Str
  syllabus_text : Str
deriving DecidableEq

structure ParsedSyllabus where
  courseData : CourseData
  assignments : List Assignment
deriving DecidableEq

/-- `x || default` on a JS string: the empty string is falsy. -/
def jsOr (o : Option Str) (d : Str) : Str :=
  match o with
  | some v => if v.isEmpty then d else v
  | none => d

def parseSyllabusDataChecked (tz : Int) (aiResponse : JSVal) : Except Str ParsedSyllabus :=
  match aiResponse with
  | .str t =>
    .ok
      { courseData :=
          { course_name := jsOr (extractFieldJS t "Course Name".data) "Unknown Course".data
            professor_name :=
              jsOr (extractFieldJS t "Professor Name".data) "Unknown Professor".data
            professor_email := jsOr (extractFieldJS t "Professor Email".data) []
            meeting_days := jsOr (extractFieldJS t "Meeting Days".data) []
            office_hours := jsOr (extractFieldJS t "Office Hours".data) []
            syllabus_text := t }
        assignments := extractAssignments tz t }
  | .obj _ => .error "TypeError: aiResponse.match is not a function".data

/-! ### The persistence batch save (`saveMultipleAssignments`)

Both database classes run the same loop:
```
const savedAssignments = [];
for (const assignment of assignments) {
  try { savedAssignments.push(await this.saveAssignment(courseId, assignment)); }
  catch (error) { console.error(...); }
}
return savedAssignments;
```
The effectful `saveAssignment` is modelled as an oracle that threads a state
`σ` (the database) and either returns an id or fails. -/

def saveMultipleAssignments {σ γ α ε ι : Type}
    (saveAssignment : σ → γ → α → σ × Except ε ι)
    (s : σ) (courseId : γ) (assignments : List α) : σ × List ι :=
  assignments.foldl
    (fun acc a =>
      match saveAssignment acc.1 courseId a with
      | (s2, Except.ok i) => (s2, acc.2 ++ [i])
      | (s2, Except.error _) => (s2, acc.2))
    (s, [])

/-- The sequence of outcomes of attempting every assignment in order. -/
def saveOutcomes {σ γ α ε ι : Type}
    (saveAssignment : σ → γ → α → σ × Except ε ι) :
    σ → γ → List α → List (Except ε ι)
  | _, _, [] => []
  | s, cid, a :: rest =>
    match saveAssignment s cid a with
    | (s2, r) => r :: saveOutcomes saveAssignment s2 cid rest

/-! ## Theorems -/

theorem saveMultipleAssignments_go {σ γ α ε ι : Type}
    (save : σ → γ → α → σ × Except ε ι) (cid : γ) :
    ∀ (l : List α) (s : σ) (acc : List ι),
      (l.foldl
        (fun acc2 a =>
          match save acc2.1 cid a with
          | (s2, Except.ok i) => (s2, acc2.2 ++ [i])
          | (s2, Except.error _) => (s2, acc2.2))
        (s, acc)).2
      = acc ++ (saveOutcomes save s cid l).filterMap Except.toOption := by
  intro l
  induction l with
  | nil => intro s acc; simp [saveOutcomes]
  | cons a rest ih =>
    intro s acc
    simp only [List.foldl_cons, saveOutcomes]
    cases hsv : save s cid a with
    | mk s2 r =>
      cases r with
      | ok i => simp [hsv, ih, Except.toOption, List.append_assoc]
      | error e => simp [hsv, ih, Except.toOption]

theorem saveOutcomes_length {σ γ α ε ι : Type}
    (save : σ → γ → α → σ × Except ε ι) (cid : γ) :
    ∀ (l : List α) (s : σ), (saveOutcomes save s cid l).length = l.length := by
  intro l
  induction l with
  | nil => intro s; rfl
  | cons a rest ih =>
    intro s
    simp only [saveOutcomes]
    cases save s cid a with
    | mk s2 r => simp [ih]

/-- Claim C9: `saveMultipleAssignments` attempts every assignment (the
outcome trace has one entry per input), a single failure does not abort the
loop, and the returned ids are exactly the ids of the successful saves in
input order. -/
theorem c9_partial_failure {σ γ α ε ι : Type}
    (saveAssignment : σ → γ → α → σ × Except ε ι)
    (s : σ) (courseId : γ) (assignments : List α) :
    (saveMultipleAssignments saveAssignment s courseId assignments).2
      = (saveOutcomes saveAssignment s courseId assignments).filterMap Except.toOption
    ∧ (saveOutcomes saveAssignment s courseId assignments).length = assignments.length := by
  constructor
  · simpa using saveMultipleAssignments_go saveAssignment courseId assignments s []
  · exact saveOutcomes_length saveAssignment courseId assignments s

/-- Claim C10: `combineAllResults` reads only each entry's `plain_text`;
page numbers never influence the output. -/
theorem c10_page_number_independent (l₁ l₂ : List PageEntry)
    (h : l₁.map (fun p => p.data.plain_text) = l₂.map (fun p => p.data.plain_text)) :
    combineAllResults l₁ = combineAllResults l₂ := by
  unfold combineAllResults mergeState
  rw [← List.foldl_map (fun p : PageEntry => p.data.plain_text) (fun st t => stepPage st t),
    ← List.foldl_map (fun p : PageEntry => p.data.plain_text) (fun st t => stepPage st t), h]

/-- Claim C6 (code bug evaluation): on string inputs the embedded pipeline —
with every JS throw source (`.match` on a non-string, `toISOString` on an
Invalid Date) made explicit — always returns `.ok`; but `server.js` hoists
the later, string-based `parseSyllabusData` over the object-based one and the
route passes it `aiResponse` unguarded, so the image path's object
`{ plain_text: ... }` makes `extractField` throw a TypeError. -/
theorem c6_code_bug_eval :
    (∀ (tz : Int) (t : Str), ∃ r, parseSyllabusDataChecked tz (JSVal.str t) = Except.ok r) ∧
    parseSyllabusDataChecked 0
        (JSVal.obj [("plain_text".data,
          JSVal.str "🎓 COURSE INFORMATION\n• Professor: Dr. A\n".data)])
      = Except.error "TypeError: aiResponse.match is not a function".data :=
  ⟨fun _ _ => ⟨_, rfl⟩, rfl⟩

theorem mergeList_eq (get : MergeState → List Str) (title : Str)
    (hstep : ∀ st c, get (stepPage st c) = addUnique (get st) (extractBulletPoints c title)) :
    ∀ (pages : List PageEntry) (st : MergeState),
      get (pages.foldl (fun s p => stepPage s p.data.plain_text) st)
        = (pages.map fun p => extractBulletPoints p.data.plain_text title).foldl
            addUnique (get st) := by
  intro pages
  induction pages with
  | nil => intro st; rfl
  | cons p rest ih =>
    intro st
    simp only [List.foldl_cons, List.map_cons]
    rw [ih, hstep]

theorem addUnique_nodup (items : List Str) :
    ∀ acc : List Str, acc.Nodup → (addUnique acc items).Nodup := by
  induction items with
  | nil => intro acc h; exact h
  | cons i rest ih =>
    intro acc h
    show (addUnique (if acc.contains i then acc else acc ++ [i]) rest).Nodup
    apply ih
    by_cases hm : i ∈ acc
    · simpa [hm] using h
    · simp [hm, List.nodup_append, h]

theorem foldl_addUnique_nodup (ls : List (List Str)) :
    ∀ acc : List Str, acc.Nodup → (ls.foldl addUnique acc).Nodup := by
  induction ls with
  | nil => intro acc h; exact h
  | cons l rest ih => intro acc h; exact ih _ (addUnique_nodup l acc h)

/-- Claim C5: the merger accumulates each of the five list categories by
appending, per page in order, only values not already present
(`addUnique`), so each merged list is the `addUnique` fold of the per-page
extractions, and is duplicate-free; the literal two-page example merges to
exactly `["Oct 1", "Oct 15"]`. -/
theorem c5_union_dedup :
    (∀ pages : List PageEntry,
      ((mergeState pages).testDates
          = (pages.map fun p => extractBulletPoints p.data.plain_text testDatesTitle).foldl
              addUnique []
        ∧ (mergeState pages).assignmentDeadlines
          = (pages.map fun p =>
              extractBulletPoints p.data.plain_text assignmentDeadlinesTitle).foldl addUnique []
        ∧ (mergeState pages).weeklyReadings
          = (pages.map fun p => extractBulletPoints p.data.plain_text weeklyReadingsTitle).foldl
              addUnique []
        ∧ (mergeState pages).majorDeliverables
          = (pages.map fun p =>
              extractBulletPoints p.data.plain_text majorDeliverablesTitle).foldl addUnique []
        ∧ (mergeState pages).importantDates
          = (pages.map fun p => extractBulletPoints p.data.plain_text importantDatesTitle).foldl
              addUnique [])
      ∧ ((mergeState pages).testDates.Nodup ∧ (mergeState pages).assignmentDeadlines.Nodup
        ∧ (mergeState pages).weeklyReadings.Nodup ∧ (mergeState pages).majorDeliverables.Nodup
        ∧ (mergeState pages).importantDates.Nodup))
    ∧ [["Oct 1".data], ["Oct 1".data, "Oct 15".data]].foldl addUnique []
        = ["Oct 1".data, "Oct 15".data] := by
  constructor
  · intro pages
    have h1 := mergeList_eq (fun st => st.testDates) testDatesTitle
      (fun _ _ => rfl) pages initState
    have h2 := mergeList_eq (fun st => st.assignmentDeadlines) assignmentDeadlinesTitle
      (fun _ _ => rfl) pages initState
    have h3 := mergeList_eq (fun st => st.weeklyReadings) weeklyReadingsTitle
      (fun _ _ => rfl) pages initState
    have h4 := mergeList_eq (fun st => st.majorDeliverables) majorDeliverablesTitle
      (fun _ _ => rfl) pages initState
    have h5 := mergeList_eq (fun st => st.importantDates) importantDatesTitle
      (fun _ _ => rfl) pages initState
    refine ⟨⟨h1, h2, h3, h4, h5⟩, ?_, ?_, ?_, ?_, ?_⟩ <;>
      first
      | exact h1 ▸ foldl_addUnique_nodup _ _ List.nodup_nil
      | exact h2 ▸ foldl_addUnique_nodup _ _ List.nodup_nil
      | exact h3 ▸ foldl_addUnique_nodup _ _ List.nodup_nil
      | exact h4 ▸ foldl_addUnique_nodup _ _ List.nodup_nil
      | exact h5 ▸ foldl_addUnique_nodup _ _ List.nodup_nil
  · decide

/-- Formalization of claim C3's classification rule, following the claim's
own wording and keyword order: section name or line contains "test" or
"exam" gives exam; else line "assignment"/"homework" gives assignment; else
"reading"; else "project"; else "quiz"; else other (case-insensitive
substring tests, first match wins). -/
def claimClassify (bullet sect : Str) : Str :=
  let b := lowerStr bullet
  let s := lowerStr sect
  if (containsSub s "test".data || containsSub s "exam".data)
      || (containsSub b "test".data || containsSub b "exam".data) then "exam".data
  else if containsSub b "assignment".data || containsSub b "homework".data then
    "assignment".data
  else if containsSub b "reading".data then "reading".data
  else if containsSub b "project".data then "project".data
  else if containsSub b "quiz".data then "quiz".data
  else "other".data

theorem classifyType_eq_claim (bullet sect : Str) :
    classifyType bullet sect = claimClassify bullet sect := by
  simp only [classifyType, claimClassify]
  have e : ∀ a b c d : Bool, (a || b || c || d) = ((a || b) || (d || c)) := by decide
  rw [e]

/-- Claim C3 (amended): assignment-type classification is exactly the
claim's first-match-wins case-insensitive substring rule, and the literals
"Final Exam due December 12, 2024" and "Homework 2 Due: October 8, 2024"
classify as "exam" and "assignment"; but "Week 3: Chapter 5-6" contains none
of the keywords, so under a section without "test"/"exam" it classifies as
"other" (the claim's "reading" is wrong). -/
theorem c3_classification_amended :
    (∀ (tz : Int) (bullet sect : Str),
      (parseAssignmentBullet tz bullet sect).type = claimClassify bullet sect)
    ∧ (parseAssignmentBullet 0 "Final Exam due December 12, 2024".data
        "TEST DATES".data).type = "exam".data
    ∧ (parseAssignmentBullet 0 "Homework 2 Due: October 8, 2024".data
        "ASSIGNMENT DEADLINE".data).type = "assignment".data
    ∧ (parseAssignmentBullet 0 "Week 3: Chapter 5-6".data "Important Dates".data).type
        = "other".data := by
  refine ⟨fun tz bullet sect => ?_, by decide, by decide, by decide⟩
  show classifyType bullet sect = claimClassify bullet sect
  exact classifyType_eq_claim bullet sect

/-- Claim C3 counterexample: the claim's literal case says
"Week 3: Chapter 5-6" classifies as "reading", but the line does not contain
the substring "reading", so the classifier returns "other" (here under the
section "Important Dates", one of the sections `extractAssignments` feeds
to the classifier). -/
theorem c3_counterexample :
    (parseAssignmentBullet 0 "Week 3: Chapter 5-6".data "Important Dates".data).type
      = "other".data
    ∧ "other".data ≠ "reading".data
    ∧ containsSub (lowerStr "Week 3: Chapter 5-6".data) "reading".data = false := by
  decide

/-! ### Claim C2 -/

def midtermLine : Str := "Midterm March 15, 2024 (reschedule 3/20/2024)".data

theorem fdiv_round_trip (D tz : Int) (h1 : -1440 < tz) (h2 : tz ≤ 0) :
    Int.fdiv (D * 1440 - tz) 1440 = D := by
  rw [Int.fdiv_eq_ediv _ (by norm_num)]
  omega

theorem isoDateString_of_nonpos (tz y m d : Int) (h1 : -1440 < tz) (h2 : tz ≤ 0) :
    isoDateString tz y m d = isoOfDays (daysFromCivil y m d) := by
  unfold isoDateString
  rw [fdiv_round_trip _ _ h1 h2]

/-- Claim C2 (amended): the four date patterns are tried in their fixed
order and the first pattern that matches anywhere (and parses) determines
`dueDate`; `dueDate` is the UTC calendar day of the parsed date interpreted
at server-local midnight, which equals the matched date's own calendar
components exactly when the server's UTC offset is ≤ 0 (e.g. a UTC
deployment); on the literal input both pattern 1 ("March 15, 2024") and
pattern 2 ("3/20/2024") match, pattern 1 wins, and for offsets ≤ 0 the
dueDate is "2024-03-15". -/
theorem c2_date_priority_amended (tz : Int) (h1 : -1440 < tz) (h2 : tz ≤ 0) :
    (∀ (bullet sect m : Str) (y mo d : Int),
      firstMatch1 bullet = some m → jsDateParse m = some (y, mo, d) →
      (parseAssignmentBullet tz bullet sect).due_date = some (isoDateString tz y mo d))
    ∧ firstMatch1 midtermLine = some "March 15, 2024".data
    ∧ firstMatchSlash midtermLine = some "3/20/2024".data
    ∧ (parseAssignmentBullet tz midtermLine "TEST DATES".data).due_date
        = some "2024-03-15".data := by
  have key : ∀ (bullet sect m : Str) (y mo d : Int),
      firstMatch1 bullet = some m → jsDateParse m = some (y, mo, d) →
      (parseAssignmentBullet tz bullet sect).due_date = some (isoDateString tz y mo d) := by
    intro bullet sect m y mo d hm hp
    show (tryDateGo tz bullet datePatterns).map (fun x => x.1) = _
    simp only [datePatterns, tryDateGo, hm, hp]
    rfl
  refine ⟨key, by decide, by decide, ?_⟩
  rw [key midtermLine "TEST DATES".data "March 15, 2024".data 2024 3 15 (by decide) (by decide),
    isoDateString_of_nonpos tz 2024 3 15 h1 h2]
  decide

/-- Claim C2 witness: at UTC (offset 0) the literal input's dueDate is
"2024-03-15". -/
theorem c2_witness :
    (parseAssignmentBullet 0 midtermLine "TEST DATES".data).due_date
      = some "2024-03-15".data :=
  (c2_date_priority_amended 0 (by decide) (by decide)).2.2.2

/-- Claim C2 counterexample: on a server one hour east of UTC (offset +60),
`new Date("March 15, 2024")` is local midnight and `toISOString()` shifts it
to the previous UTC day, so the literal input's dueDate is "2024-03-14", not
"2024-03-15" — the claim's "no timezone shifting" fails. -/
theorem c2_counterexample :
    (parseAssignmentBullet 60 midtermLine "TEST DATES".data).due_date
      = some "2024-03-14".data
    ∧ "2024-03-14".data ≠ "2024-03-15".data := by decide

/-! ### Claim C4 -/

/-- The pre-filter entries of a section: the bullet matches of the section's
captured block, bullet marker stripped and trimmed, in text order. -/
def rawEntries (content title : Str) : List Str :=
  match findSectionTail title content with
  | none => []
  | some tail => (allBullets (takeBlock tail)).map cleanBullet

def c4Demo : Str :=
  "TEST DATES\n• abcdef\n• abcde\n• Not specified in document x\n• see TEST DATES above\n".data

/-- Claim C4 (amended): every entry `extractBulletPoints` returns is free of
the placeholder sentinel and of the two hard-coded header strings
"TEST DATES" / "ASSIGNMENT DEADLINE" (the code checks those two literals
regardless of which section is queried — not the queried section's own
header), and has length ≥ 6, with the boundary exactly at 6 (6-character
entries kept, 5-character entries dropped); the returned list is an
order-preserving sublist of the section's trimmed bullet entries. -/
theorem c4_filtering_amended :
    (∀ (content title e : Str), e ∈ extractBulletPoints content title →
      containsSub e sentinel = false ∧ containsSub e testDatesHdr = false
      ∧ containsSub e assignDeadlineHdr = false ∧ 6 ≤ utf16Len e)
    ∧ (∀ content title : Str,
        List.Sublist (extractBulletPoints content title) (rawEntries content title))
    ∧ extractBulletPoints c4Demo testDatesTitle = ["abcdef".data]
    ∧ utf16Len "abcdef".data = 6 ∧ utf16Len "abcde".data = 5 := by
  refine ⟨?_, ?_, by decide, by decide, by decide⟩
  · intro content title e he
    have hk : keepBullet e = true := by
      unfold extractBulletPoints at he
      cases hf : findSectionTail title content with
      | none => rw [hf] at he; simp at he
      | some tail => rw [hf] at he; exact List.of_mem_filter he
    unfold keepBullet at hk
    simp only [Bool.and_eq_true, Bool.not_eq_true', decide_eq_true_eq] at hk
    exact ⟨hk.1.1.1.2, hk.1.1.2, hk.1.2, hk.2⟩
  · intro content title
    unfold extractBulletPoints rawEntries
    cases findSectionTail title content with
    | none => exact List.nil_sublist _
    | some tail => exact List.filter_sublist _

/-- Claim C4 witness: applying the filter guarantees to the kept 6-character
entry of the demo text. -/
theorem c4_witness :
    containsSub "abcdef".data sentinel = false
    ∧ containsSub "abcdef".data testDatesHdr = false
    ∧ containsSub "abcdef".data assignDeadlineHdr = false
    ∧ 6 ≤ utf16Len "abcdef".data :=
  c4_filtering_amended.1 c4Demo testDatesTitle "abcdef".data (by decide)

/-- Claim C4 counterexample: an entry that duplicates the queried section's
own header text ("WEEKLY READINGS") is *returned*, because the code only
filters the fixed strings "TEST DATES" and "ASSIGNMENT DEADLINE", not the
queried section's own header. -/
theorem c4_counterexample :
    extractBulletPoints "WEEKLY READINGS\n• WEEKLY READINGS\n".data weeklyReadingsTitle
      = ["WEEKLY READINGS".data] := by decide

/-! ### Claim C1 -/

/-- The value a page yields for a labelled field: the leftmost capture of
`label: ([^\n•]+)`, rejected when it contains the substring "Not specified"
or trims to the empty string; otherwise the trimmed capture. -/
def goodFieldValue (content lbl : Str) : Option Str :=
  if containsSub content (lbl ++ [':']) then
    match extractLabeledRaw (lbl ++ [':', ' ']) content with
    | some raw =>
      if containsSub raw notSpecifiedShort || (trimJs raw).isEmpty then none
      else some (trimJs raw)
    | none => none
  else none

/-- First yielded value in page order; empty when no page yields one. -/
def firstHit : List (Option Str) → Str
  | [] => []
  | some v :: _ => v
  | none :: rest => firstHit rest

theorem updateField_empty (c lbl : Str) :
    updateField c lbl [] = (goodFieldValue c lbl).getD [] := by
  unfold updateField goodFieldValue
  cases hc : containsSub c (lbl ++ [':'])
  · simp
  · cases hr : extractLabeledRaw (lbl ++ [':', ' ']) c
    · simp
    · rename_i raw
      by_cases hn : containsSub raw notSpecifiedShort = true
      · simp [hn]
      · have hn2 : containsSub raw notSpecifiedShort = false := by
          simpa using hn
        by_cases ht : (trimJs raw).isEmpty = true
        · have ht2 : trimJs raw = [] := by simpa using ht
          simp [hn2, ht, ht2]
        · have ht2 : (trimJs raw).isEmpty = false := by simpa using ht
          simp [hn2, ht2]

theorem updateField_nonempty (c lbl cur : Str) (h : cur.isEmpty = false) :
    updateField c lbl cur = cur := by
  unfold updateField
  simp [h]

theorem goodFieldValue_ne_empty {c lbl v : Str} (h : goodFieldValue c lbl = some v) :
    v.isEmpty = false := by
  unfold goodFieldValue at h
  split at h
  · split at h
    · rename_i raw heq
      split at h
      · simp at h
      · rename_i hcond
        cases h
        simp only [Bool.or_eq_true, not_or] at hcond
        simpa using hcond.2
    · simp at h
  · simp at h

theorem mergeField_eq (get : MergeState → Str) (lbl : Str)
    (hstep : ∀ st c, get (stepPage st c) = updateField c lbl (get st)) :
    ∀ (pages : List PageEntry) (st : MergeState),
      get (pages.foldl (fun s p => stepPage s p.data.plain_text) st)
        = if (get st).isEmpty
          then firstHit (pages.map fun p => goodFieldValue p.data.plain_text lbl)
          else get st := by
  intro pages
  induction pages with
  | nil =>
    intro st
    simp only [List.foldl_nil, List.map_nil]
    cases hst : (get st).isEmpty
    · simp
    · have h0 : get st = [] := by simpa using hst
      simp [firstHit, h0]
  | cons p rest ih =>
    intro st
    simp only [List.foldl_cons, List.map_cons]
    rw [ih (stepPage st p.data.plain_text), hstep]
    cases hst : (get st).isEmpty
    · rw [updateField_nonempty _ _ _ hst]
      simp [hst]
    · have hempty : get st = [] := by simpa using hst
      rw [hempty, updateField_empty]
      cases hg : goodFieldValue p.data.plain_text lbl
      · simp [firstHit]
      · rename_i v
        have hv : v.isEmpty = false := goodFieldValue_ne_empty hg
        simp [firstHit, hv]

/-- Claim C1 (amended): each CourseFields field is set, first-wins, from the
first page whose text yields a value for the field's label that is non-empty
(after trimming) and does not contain the substring "Not specified" (the
code's check — a superset of rejecting the full placeholder sentinel); later
pages never overwrite a set field.  The literal two-page example merges
professor to "Dr. A". -/
theorem c1_first_wins_amended :
    (∀ pages : List PageEntry,
      (mergeState pages).name
          = firstHit (pages.map fun p => goodFieldValue p.data.plain_text nameLbl)
      ∧ (mergeState pages).professor
          = firstHit (pages.map fun p => goodFieldValue p.data.plain_text professorLbl)
      ∧ (mergeState pages).email
          = firstHit (pages.map fun p => goodFieldValue p.data.plain_text emailLbl)
      ∧ (mergeState pages).meetingDays
          = firstHit (pages.map fun p => goodFieldValue p.data.plain_text meetingDaysLbl)
      ∧ (mergeState pages).officeHours
          = firstHit (pages.map fun p => goodFieldValue p.data.plain_text officeHoursLbl))
    ∧ (mergeState [⟨1, ⟨"🎓 COURSE INFORMATION\n• Professor: Dr. A\n".data⟩⟩,
        ⟨2, ⟨"🎓 COURSE INFORMATION\n• Professor: Dr. B\n".data⟩⟩]).professor
        = "Dr. A".data := by
  constructor
  · intro pages
    refine ⟨?_, ?_, ?_, ?_, ?_⟩
    · simpa using mergeField_eq (fun st => st.name) nameLbl (fun _ _ => rfl) pages initState
    · simpa using
        mergeField_eq (fun st => st.professor) professorLbl (fun _ _ => rfl) pages initState
    · simpa using mergeField_eq (fun st => st.email) emailLbl (fun _ _ => rfl) pages initState
    · simpa using
        mergeField_eq (fun st => st.meetingDays) meetingDaysLbl (fun _ _ => rfl) pages initState
    · simpa using
        mergeField_eq (fun st => st.officeHours) officeHoursLbl (fun _ _ => rfl) pages initState
  · decide

/-- Claim C1 counterexample: page 1 yields the professor value
"Not specified yet" — non-empty and *not* containing the placeholder
sentinel "Not specified in document" — yet the merger skips it (its check is
the shorter substring "Not specified") and takes page 2's "Dr. B"; the claim
as stated would require "Not specified yet" to win. -/
theorem c1_counterexample :
    extractLabeledRaw "Professor: ".data "• Professor: Not specified yet\n".data
      = some "Not specified yet".data
    ∧ containsSub "Not specified yet".data sentinel = false
    ∧ "Not specified yet".data ≠ []
    ∧ (mergeState [⟨1, ⟨"• Professor: Not specified yet\n".data⟩⟩,
        ⟨2, ⟨"• Professor: Dr. B\n".data⟩⟩]).professor = "Dr. B".data := by decide

/-! ### Claim C8 -/

/-- `pat` occurs as a contiguous substring of `s`. -/
def occursIn (pat s : Str) : Prop := ∃ u v, s = u ++ pat ++ v

theorem occursIn_head (pat t : Str) : occursIn pat (pat ++ t) :=
  ⟨[], t, by simp⟩

theorem occursIn_right (pat s t : Str) (h : occursIn pat t) : occursIn pat (s ++ t) := by
  obtain ⟨u, v, rfl⟩ := h
  exact ⟨s ++ u, v, by simp [List.append_assoc]⟩

def courseLine (v : Str) : Str := "• Course: ".data ++ orNotSpecified v ++ "\n".data

def professorLine (v : Str) : Str := "• Professor: ".data ++ orNotSpecified v ++ "\n".data

def emailLine (v : Str) : Str := "• Email: ".data ++ orNotSpecified v ++ "\n".data

def meetingLine (v : Str) : Str := "• Meeting Days: ".data ++ orNotSpecified v ++ "\n".data

def officeLine (v : Str) : Str := "• Office Hours: ".data ++ orNotSpecified v ++ "\n".data

def examSec (l : List Str) : Str :=
  "📝 EXAM DATES\n".data ++ renderListSection l ++ "\n".data

def assignSec (l : List Str) : Str :=
  "📋 ASSIGNMENT DEADLINES\n".data ++ renderListSection l ++ "\n".data

def importantSec (l : List Str) : Str :=
  "📅 IMPORTANT DATES\n".data ++ renderListSection l ++ "\n".data

theorem renderTemplate_shape (st : MergeState) :
    renderTemplate st
      = "\n".data ++ (heavyLine
        ++ ("\n\n📚 SYLLABUS SUMMARY\n\n🎓 COURSE INFORMATION\n".data
        ++ (courseLine st.name ++ (professorLine st.professor ++ (emailLine st.email
        ++ (meetingLine st.meetingDays ++ (officeLine st.officeHours ++ ("\n".data
        ++ (examSec st.testDates ++ ("\n".data ++ (assignSec st.assignmentDeadlines
        ++ ("\n".data ++ (importantSec (setDedup st.importantDates)
        ++ ("\n".data ++ (heavyLine ++ "\n".data))))))))))))))) := by
  have s1 : "\n\n📚 SYLLABUS SUMMARY\n\n🎓 COURSE INFORMATION\n• Course: ".data
      = "\n\n📚 SYLLABUS SUMMARY\n\n🎓 COURSE INFORMATION\n".data ++ "• Course: ".data := rfl
  have s2 : "\n• Professor: ".data = "\n".data ++ "• Professor: ".data := rfl
  have s3 : "\n• Email: ".data = "\n".data ++ "• Email: ".data := rfl
  have s4 : "\n• Meeting Days: ".data = "\n".data ++ "• Meeting Days: ".data := rfl
  have s5 : "\n• Office Hours: ".data = "\n".data ++ "• Office Hours: ".data := rfl
  have s6 : "\n\n📝 EXAM DATES\n".data
      = "\n".data ++ ("\n".data ++ "📝 EXAM DATES\n".data) := rfl
  have s7 : "\n\n📋 ASSIGNMENT DEADLINES\n".data
      = "\n".data ++ ("\n".data ++ "📋 ASSIGNMENT DEADLINES\n".data) := rfl
  have s8 : "\n\n📅 IMPORTANT DATES\n".data
      = "\n".data ++ ("\n".data ++ "📅 IMPORTANT DATES\n".data) := rfl
  have s9 : "\n\n".data = "\n".data ++ "\n".data := rfl
  unfold renderTemplate
  rw [s1, s2, s3, s4, s5, s6, s7, s8, s9]
  simp only [courseLine, professorLine, emailLine, meetingLine, officeLine, examSec,
    assignSec, importantSec, List.append_assoc]

/-- Claim C8 (amended): in the rendered summary, a CourseFields field that
ended up empty is rendered as the short phrase "Not specified" (not the full
placeholder sentinel), while each of the three rendered list categories
(exam dates, assignment deadlines, important dates) substitutes the full
sentinel line "• Not specified in document" when empty; weeklyReadings and
majorDeliverables are never rendered at all. -/
theorem c8_placeholder_amended (pages : List PageEntry) :
    ((mergeState pages).name = [] →
      occursIn "• Course: Not specified\n".data (combineAllResults pages).plain_text)
    ∧ ((mergeState pages).professor = [] →
      occursIn "• Professor: Not specified\n".data (combineAllResults pages).plain_text)
    ∧ ((mergeState pages).email = [] →
      occursIn "• Email: Not specified\n".data (combineAllResults pages).plain_text)
    ∧ ((mergeState pages).meetingDays = [] →
      occursIn "• Meeting Days: Not specified\n".data (combineAllResults pages).plain_text)
    ∧ ((mergeState pages).officeHours = [] →
      occursIn "• Office Hours: Not specified\n".data (combineAllResults pages).plain_text)
    ∧ ((mergeState pages).testDates = [] →
      occursIn "📝 EXAM DATES\n• Not specified in document\n".data
        (combineAllResults pages).plain_text)
    ∧ ((mergeState pages).assignmentDeadlines = [] →
      occursIn "📋 ASSIGNMENT DEADLINES\n• Not specified in document\n".data
        (combineAllResults pages).plain_text)
    ∧ ((mergeState pages).importantDates = [] →
      occursIn "📅 IMPORTANT DATES\n• Not specified in document\n".data
        (combineAllResults pages).plain_text) := by
  have hplain : (combineAllResults pages).plain_text = renderTemplate (mergeState pages) := rfl
  refine ⟨?_, ?_, ?_, ?_, ?_, ?_, ?_, ?_⟩ <;> intro h <;> rw [hplain, renderTemplate_shape, h]
  · iterate 3 apply occursIn_right
    exact occursIn_head _ _
  · iterate 4 apply occursIn_right
    exact occursIn_head _ _
  · iterate 5 apply occursIn_right
    exact occursIn_head _ _
  · iterate 6 apply occursIn_right
    exact occursIn_head _ _
  · iterate 7 apply occursIn_right
    exact occursIn_head _ _
  · iterate 9 apply occursIn_right
    exact occursIn_head _ _
  · iterate 11 apply occursIn_right
    exact occursIn_head _ _
  · iterate 13 apply occursIn_right
    exact occursIn_head _ _

/-- Claim C8 witness: all eight empty-value substitutions, instantiated at
the empty page list (every field and list is empty there). -/
theorem c8_witness :
    occursIn "• Course: Not specified\n".data (combineAllResults []).plain_text
    ∧ occursIn "• Professor: Not specified\n".data (combineAllResults []).plain_text
    ∧ occursIn "• Email: Not specified\n".data (combineAllResults []).plain_text
    ∧ occursIn "• Meeting Days: Not specified\n".data (combineAllResults []).plain_text
    ∧ occursIn "• Office Hours: Not specified\n".data (combineAllResults []).plain_text
    ∧ occursIn "📝 EXAM DATES\n• Not specified in document\n".data
        (combineAllResults []).plain_text
    ∧ occursIn "📋 ASSIGNMENT DEADLINES\n• Not specified in document\n".data
        (combineAllResults []).plain_text
    ∧ occursIn "📅 IMPORTANT DATES\n• Not specified in document\n".data
        (combineAllResults []).plain_text := by
  have h := c8_placeholder_amended []
  exact ⟨h.1 rfl, h.2.1 rfl, h.2.2.1 rfl, h.2.2.2.1 rfl, h.2.2.2.2.1 rfl,
    h.2.2.2.2.2.1 rfl, h.2.2.2.2.2.2.1 rfl, h.2.2.2.2.2.2.2 rfl⟩

set_option maxRecDepth 4000 in
/-- Claim C8 counterexample: in the rendered summary of the empty merge, an
empty CourseFields field is rendered as "Not specified", not as the
placeholder sentinel "Not specified in document" the claim requires. -/
theorem c8_counterexample :
    containsSub (combineAllResults []).plain_text
        "• Course: Not specified in document".data = false
    ∧ containsSub (combineAllResults []).plain_text "• Course: Not specified\n".data
        = true := by decide

/-! ### Claim C7 -/

def rtPage : Str :=
  ("🎓 COURSE INFORMATION\n• Course Name: CS101\n• Professor: Dr. A\n• Email: a@b.edu\n"
    ++ "• Meeting Days: MWF 10-11\n• Office Hours: Tu 2-3\n📝 TEST DATES\n"
    ++ "• Midterm March 15, 2024\n📋 ASSIGNMENT DEADLINES\n• Homework 1 due Feb 2, 2024\n"
    ++ "📅 IMPORTANT DATES\n• Spring Break March 20\n").data

def rtMerged : MergeState := mergeState [⟨1, ⟨rtPage⟩⟩]

def rtRendered : Str := (combineAllResults [⟨1, ⟨rtPage⟩⟩]).plain_text

set_option maxRecDepth 4000 in
/-- Claim C7 (amended): for a representative merged summary, re-parsing the
rendered template recovers professor, email, meeting days and office hours
(via `extractField` under the labels the template actually renders) and the
three rendered list categories (via `extractBulletPoints` under the rendered
headers "EXAM DATES", "ASSIGNMENT DEADLINES", "IMPORTANT DATES"); the course
name and the unrendered weeklyReadings/majorDeliverables lists are *not*
recovered, so the round-trip fails as originally stated. -/
theorem c7_roundtrip_amended :
    rtMerged.professor = "Dr. A".data
    ∧ extractFieldJS rtRendered "Professor".data = some "Dr. A".data
    ∧ rtMerged.email = "a@b.edu".data
    ∧ extractFieldJS rtRendered "Email".data = some "a@b.edu".data
    ∧ rtMerged.meetingDays = "MWF 10-11".data
    ∧ extractFieldJS rtRendered "Meeting Days".data = some "MWF 10-11".data
    ∧ rtMerged.officeHours = "Tu 2-3".data
    ∧ extractFieldJS rtRendered "Office Hours".data = some "Tu 2-3".data
    ∧ rtMerged.testDates = ["Midterm March 15, 2024".data]
    ∧ extractBulletPoints rtRendered "EXAM DATES".data = rtMerged.testDates
    ∧ extractBulletPoints rtRendered "ASSIGNMENT DEADLINES".data
        = rtMerged.assignmentDeadlines
    ∧ extractBulletPoints rtRendered "IMPORTANT DATES".data = rtMerged.importantDates := by
  decide

set_option maxRecDepth 4000 in
/-- Claim C7 counterexample: the merged course name "CS101" is not recovered
from the rendered template — the template renders the label "Course:" while
the field extractor's label is "Course Name", so re-parsing returns none. -/
theorem c7_counterexample :
    rtMerged.name = "CS101".data
    ∧ extractFieldJS rtRendered "Course Name".data = none := by decide

theorem c10_witness :
    combineAllResults [⟨1, ⟨"🎓 COURSE INFORMATION\n• Professor: Dr. A\n".data⟩⟩,
        ⟨2, ⟨"📝 TEST DATES\n• Midterm March 15, 2024\n".data⟩⟩]
      = combineAllResults [⟨41, ⟨"🎓 COURSE INFORMATION\n• Professor: Dr. A\n".data⟩⟩,
        ⟨-7, ⟨"📝 TEST DATES\n• Midterm March 15, 2024\n".data⟩⟩] :=
  c10_page_number_independent _ _ rfl

end Syllabus
